import Mathlib

/-!
Verification of the Inoreader MCP server's authenticated API client
(`src/client.ts`), its token-refresh protocol, the article formatter and
tool argument schemas (`src/index.ts`), against the natural-language
specification.

The TypeScript code is shallowly embedded: the effectful `request` method
becomes a function over an explicit oracle of HTTP responses (one response
consumed per `fetch`) and an explicit refresh environment (what
`loadTokens` / `refreshAccessToken` would return); JavaScript truthiness
of optional strings/numbers is modelled explicitly; thrown errors become
an `Except` error value.
-/

namespace Inoreader

/-- JavaScript truthiness of an optional string (`undefined`, `null` and
`""` are falsy). -/
def strTruthy : Option String → Bool
  | none => false
  | some s => s ≠ ""

/-- JavaScript truthiness of an optional number (`undefined` and `0` are
falsy). -/
def natTruthy : Option Nat → Bool
  | none => false
  | some n => n ≠ 0

/-- Whether the character list `needle` is a prefix of `hay`
(model of the start of a JavaScript substring search). -/
def startsWithChars : List Char → List Char → Bool
  | [], _ => true
  | _ :: _, [] => false
  | a :: as, b :: bs => a == b && startsWithChars as bs

/-- Whether the character list `needle` occurs contiguously inside `hay`. -/
def containsChars (needle : List Char) : List Char → Bool
  | [] => needle.isEmpty
  | b :: bs => startsWithChars needle (b :: bs) || containsChars needle bs

/-- Model of JavaScript `s.includes(sub)`: substring containment. -/
def strContains (s sub : String) : Bool :=
  containsChars sub.data s.data

/-! ## Token data model (`src/keychain.ts`, `src/auth.ts`) -/

/-- The persisted token pair, `TokenData` in `src/keychain.ts`:
`{accessToken, refreshToken, expiresAt?}`. -/
structure TokenData where
  accessToken : String
  refreshToken : String
  expiresAt : Option Nat
deriving DecidableEq, Repr

/-- The upstream OAuth token endpoint's response, `TokenResponse` in
`src/auth.ts`: `{access_token, refresh_token, expires_in, token_type}`.
`token_type` is never read by the client and is omitted. -/
structure TokenResponse where
  access_token : String
  refresh_token : String
  expires_in : Nat
deriving DecidableEq, Repr

/-- Environment for one invocation of the token-refresh protocol: what
`loadTokens()` returns (`none` models "no stored tokens"), what
`refreshAccessToken` returns (`none` models a thrown failure: network
error or non-2xx), and the current clock `Date.now()`. -/
structure RefreshEnv where
  storedTokens : Option TokenData
  refreshResult : Option TokenResponse
  now : Nat
deriving DecidableEq, Repr

/-- Observable side effects of the refresh protocol, in order of
occurrence: a `saveTokens` call and the adoption of a new access token
into the live session (`this.accessToken = ...`). -/
inductive RefreshEvent where
  | save (t : TokenData)
  | adopt (a : String)
deriving DecidableEq, Repr

/-- Result of `tryRefreshToken`: the returned boolean, the token pair
passed to `saveTokens` (if any), the access token adopted into the
session (if any), and the ordered trace of side effects. -/
structure RefreshOutcome where
  success : Bool
  saved : Option TokenData
  newAccess : Option String
  events : List RefreshEvent
deriving DecidableEq, Repr

/-- Embedding of `InoreaderClient.tryRefreshToken` (`src/client.ts` lines
25-46): load the stored pair; fail if absent or its refresh token is
falsy; otherwise call the refresh endpoint; on success compute
`expiresAt = now + expires_in * 1000`, save
`{access_token, refresh_token || old refresh token, expiresAt}` in a
single `saveTokens` call, then adopt the new access token. Any thrown
error yields `false`. -/
def tryRefreshToken (env : RefreshEnv) : RefreshOutcome :=
  match env.storedTokens with
  | none => ⟨false, none, none, []⟩
  | some tokens =>
    if tokens.refreshToken = "" then ⟨false, none, none, []⟩
    else
      match env.refreshResult with
      | none => ⟨false, none, none, []⟩
      | some newTokens =>
        let expiresAt := env.now + newTokens.expires_in * 1000
        let savedPair : TokenData :=
          { accessToken := newTokens.access_token
            refreshToken :=
              if newTokens.refresh_token = "" then tokens.refreshToken
              else newTokens.refresh_token
            expiresAt := some expiresAt }
        ⟨true, some savedPair, some newTokens.access_token,
          [.save savedPair, .adopt newTokens.access_token]⟩

/-! ## The request state machine (`src/client.ts`, `request`) -/

/-- One HTTP response as observed by `request`: status, reason phrase,
the `content-type` header (`none` when absent) and the body text. -/
structure Response where
  status : Nat
  statusText : String
  contentType : Option String
  body : String
deriving DecidableEq, Repr

/-- `response.ok` of the Fetch API: status in [200, 299]. -/
def Response.isOk (r : Response) : Prop :=
  200 ≤ r.status ∧ r.status < 300

instance (r : Response) : Decidable r.isOk := by
  unfold Response.isOk; infer_instance

/-- Whether the `content-type` header indicates JSON:
`(headers.get("content-type") ?? "").includes("application/json")`. -/
def jsonContentType (r : Response) : Bool :=
  strContains (r.contentType.getD "") "application/json"

/-- The successful result of a `request`, one of three kinds: a decoded
JSON body (carried here as the raw body handed to the JSON decoder), a
void/empty result (`undefined`), or the raw response text. -/
inductive ReqOutcome where
  | json (body : String)
  | voidResult
  | text (body : String)
deriving DecidableEq, Repr

/-- A thrown error of `request`: a transport failure (fetch itself
threw), an `AuthenticationError`, or a generic `InoreaderClientError`. -/
inductive ReqError where
  | transport
  | authentication (msg : String)
  | client (msg : String)
deriving DecidableEq, Repr

/-- Message of the `AuthenticationError` raised for a 401. -/
def authExpiredMsg : String :=
  "Authentication failed. Token may be expired. Run \x27bun run start auth login\x27 to re-authenticate."

/-- Message of the `AuthenticationError` raised for a 403. -/
def forbiddenMsg : String :=
  "Access forbidden. API access requires Inoreader Pro."

/-- Classification of a 2xx response body (`src/client.ts` lines
109-126): JSON content-type wins, then 204/205 and the empty body map to
the void result, otherwise the raw text is returned. -/
def classify (r : Response) : ReqOutcome :=
  if jsonContentType r then .json r.body
  else if r.status = 204 ∨ r.status = 205 then .voidResult
  else if r.body = "" then .voidResult
  else .text r.body

/-- The client's mutable per-instance session state, plus an
instrumentation counter of how many times the token-refresh protocol has
been invoked. -/
structure ReqState where
  accessToken : String
  hasRetriedAuth : Bool
  refreshCount : Nat
deriving DecidableEq, Repr

/-- Embedding of `InoreaderClient.request` (`src/client.ts` lines
48-127). The `List Response` argument is the oracle of responses `fetch`
will produce, one per attempt; an exhausted oracle models a thrown
transport error. Classification order follows the source: 401 on a first
attempt sets the retry flag, invokes the refresh protocol and either
replays once or throws an `AuthenticationError`; 401 otherwise and 403
throw `AuthenticationError`s; any other non-2xx throws a generic client
error carrying status and reason phrase; a 2xx clears the retry flag and
returns the classified body. -/
def request (env : RefreshEnv) : ReqState → List Response → Except ReqError ReqOutcome × ReqState
  | st, [] => (.error .transport, st)
  | st, r :: rest =>
    if r.status = 401 ∧ st.hasRetriedAuth = false then
      let out := tryRefreshToken env
      let st1 : ReqState :=
        { accessToken := (out.newAccess).getD st.accessToken
          hasRetriedAuth := true
          refreshCount := st.refreshCount + 1 }
      if out.success then request env st1 rest
      else (.error (.authentication authExpiredMsg), st1)
    else if r.status = 401 then (.error (.authentication authExpiredMsg), st)
    else if r.status = 403 then (.error (.authentication forbiddenMsg), st)
    else if ¬ r.isOk then
      (.error (.client ("API request failed: " ++ toString r.status ++ " " ++ r.statusText)), st)
    else
      (.ok (classify r), { st with hasRetriedAuth := false })

/-! ## Typed operations (`src/client.ts`) and their outgoing requests -/

/-- A fully built outgoing HTTP request: method, endpoint path, query
parameters and form body, each an ordered list of key-value pairs
(`URLSearchParams` preserves insertion order and repeated keys). -/
structure ReqSpec where
  method : String
  endpoint : String
  params : List (String × String)
  body : List (String × String)
deriving DecidableEq, Repr

/-- UTF-8 byte sequence of a character, as natural numbers. -/
def utf8Bytes (c : Char) : List Nat :=
  let n := c.toNat
  if n < 128 then [n]
  else if n < 2048 then [192 + n / 64, 128 + n % 64]
  else if n < 65536 then [224 + n / 4096, 128 + (n / 64) % 64, 128 + n % 64]
  else [240 + n / 262144, 128 + (n / 4096) % 64, 128 + (n / 64) % 64, 128 + n % 64]

/-- Uppercase hexadecimal digit for `n < 16`. -/
def hexDigitChar (n : Nat) : Char :=
  if n < 10 then Char.ofNat (48 + n) else Char.ofNat (55 + n)

/-- The characters JavaScript `encodeURIComponent` leaves unescaped:
`A-Z a-z 0-9 - _ . ! ~ * \x27 ( )`. -/
def isUnreservedUriChar (c : Char) : Bool :=
  (65 ≤ c.toNat && c.toNat ≤ 90) || (97 ≤ c.toNat && c.toNat ≤ 122) ||
  (48 ≤ c.toNat && c.toNat ≤ 57) ||
  c == '-' || c == '_' || c == '.' || c == '!' || c == '~' || c == '*' ||
  c == '\x27' || c == '(' || c == ')'

/-- Model of JavaScript `encodeURIComponent`: unreserved characters pass
through, all other characters are percent-encoded byte by byte in UTF-8. -/
def encodeURIComponent (s : String) : String :=
  String.mk (s.data.foldr
    (fun c acc =>
      if isUnreservedUriChar c then c :: acc
      else (utf8Bytes c).foldr
        (fun b acc2 => '%' :: hexDigitChar (b / 16) :: hexDigitChar (b % 16) :: acc2)
        acc)
    [])

/-- The Inoreader "read" state tag (the `com.google/read` user state). -/
def readStateTag : String := "user/-/state/com.google/read"

/-- The Inoreader "starred" state tag (the `com.google/starred` user
state). -/
def starredStateTag : String := "user/-/state/com.google/starred"

/-- Options of `getStreamContents` (`src/client.ts` lines 149-156). -/
structure StreamOptions where
  count : Option Int
  continuation : Option String
  excludeTarget : Option String
  includeAllItems : Bool
deriving DecidableEq, Repr

/-- Embedding of `InoreaderClient.getStreamContents` (`src/client.ts`
lines 149-179): builds the GET request against
`/stream/contents/{encoded stream id}` with `output=json`,
`n = String(Math.min(count ?? 20, 1000))`, and the optional
continuation, exclude-target and include-all-items parameters. -/
def getStreamContents (streamId : String) (o : StreamOptions) : ReqSpec :=
  { method := "GET"
    endpoint := "/stream/contents/" ++ encodeURIComponent streamId
    params :=
      [("output", "json"), ("n", toString (min (o.count.getD 20) 1000))]
      ++ (if strTruthy o.continuation then [("c", o.continuation.getD "")] else [])
      ++ (if strTruthy o.excludeTarget then [("xt", o.excludeTarget.getD "")] else [])
      ++ (if o.includeAllItems then [("it", readStateTag)] else [])
    body := [] }

/-- Embedding of the zod schema for the `count` argument of the
`get_articles` tool (`src/index.ts`): `z.number().min(1).max(100)`. -/
def getArticlesCountAccepts (c : Int) : Bool :=
  decide (1 ≤ c ∧ c ≤ 100)

/-- The `else if (streamId)` branch of `InoreaderClient.markAsRead`
(`src/client.ts` lines 229-235): a truthy stream id posts to
`/mark-all-as-read`, omitting a falsy (absent or zero) timestamp; a
falsy stream id makes the method return with no network call (`none`). -/
def markAsReadStreamBranch (streamId : Option String) (timestamp : Option Nat) :
    Option ReqSpec :=
  if strTruthy streamId then
    some
      { method := "POST", endpoint := "/mark-all-as-read", params := []
        body := ("s", streamId.getD "")
          :: (if natTruthy timestamp then [("ts", toString (timestamp.getD 0))] else []) }
  else none

/-- Embedding of `InoreaderClient.markAsRead` (`src/client.ts` lines
217-236), continued: a truthy id list with positive length posts to
`/edit-tag` and never reads the stream id or timestamp; otherwise the
stream branch above applies. -/
def markAsRead (itemIds : Option (List String)) (streamId : Option String)
    (timestamp : Option Nat) : Option ReqSpec :=
  match itemIds with
  | some ids =>
    if ids.length > 0 then
      some
        { method := "POST", endpoint := "/edit-tag", params := []
          body := ("a", readStateTag) :: ids.map (fun id => ("i", id)) }
    else markAsReadStreamBranch streamId timestamp
  | none => markAsReadStreamBranch streamId timestamp

/-- Embedding of `InoreaderClient.markAsUnread` (`src/client.ts` lines
238-246): an empty id list returns immediately with no request;
otherwise a single `/edit-tag` POST removes the read state from every
id. -/
def markAsUnread (itemIds : List String) : Option ReqSpec :=
  if itemIds.length = 0 then none
  else
    some
      { method := "POST", endpoint := "/edit-tag", params := []
        body := ("r", readStateTag) :: itemIds.map (fun id => ("i", id)) }

/-- The success message produced by the `mark_as_unread` tool
(`src/index.ts`): reports the number of ids it was given. -/
def markAsUnreadToolMessage (itemIds : List String) : String :=
  "Marked " ++ toString itemIds.length ++ " items as unread"

/-- Options of `editSubscription` (`src/client.ts` lines 276-282). -/
structure EditOptions where
  title : Option String
  addToFolder : Option String
  removeFromFolder : Option String
deriving DecidableEq, Repr

/-- Embedding of `InoreaderClient.editSubscription` (`src/client.ts`
lines 276-320): throws a client error before any network call when no
option is (truthily) supplied, or when both folder options are supplied
and equal; otherwise builds the `/subscription/edit` POST body. -/
def editSubscription (subscriptionId : String) (o : EditOptions) :
    Except ReqError ReqSpec :=
  if ¬ strTruthy o.title ∧ ¬ strTruthy o.addToFolder ∧ ¬ strTruthy o.removeFromFolder then
    .error (.client "At least one option (title, addToFolder, or removeFromFolder) is required")
  else if strTruthy o.addToFolder ∧ strTruthy o.removeFromFolder ∧
      o.addToFolder = o.removeFromFolder then
    .error (.client "Cannot add and remove from the same folder")
  else
    .ok
      { method := "POST", endpoint := "/subscription/edit", params := []
        body :=
          [("ac", "edit"), ("s", subscriptionId)]
          ++ (if strTruthy o.title then [("t", o.title.getD "")] else [])
          ++ (if strTruthy o.addToFolder then
                [("a", "user/-/label/" ++ encodeURIComponent (o.addToFolder.getD ""))]
              else [])
          ++ (if strTruthy o.removeFromFolder then
                [("r", "user/-/label/" ++ encodeURIComponent (o.removeFromFolder.getD ""))]
              else []) }

/-! ## Article formatting (`src/index.ts`) -/

/-- `ItemSummary` of `src/types.ts`. -/
structure ItemSummary where
  direction : String
  content : String
deriving DecidableEq, Repr

/-- `ItemOrigin` of `src/types.ts` (fields the formatter reads). -/
structure ItemOrigin where
  streamId : String
  title : String
deriving DecidableEq, Repr

/-- `ItemCanonical` of `src/types.ts`. -/
structure ItemCanonical where
  href : String
deriving DecidableEq, Repr

/-- `StreamItem` of `src/types.ts` (fields the formatter reads). -/
structure StreamItem where
  id : String
  published : Option Nat
  title : String
  canonical : Option (List ItemCanonical)
  alternate : Option (List ItemCanonical)
  categories : List String
  origin : Option ItemOrigin
  summary : Option ItemSummary
  author : Option String
deriving DecidableEq, Repr

/-- The truthy `href` of the first element of an optional link list:
`links?.[0]?.href` followed by a truthiness test. -/
def firstHref : Option (List ItemCanonical) → Option String
  | some (c :: _) => if c.href = "" then none else some c.href
  | _ => none

/-- Embedding of `getArticleUrl` (`src/index.ts`): the first canonical
link, else the first alternate link, else the empty string. -/
def getArticleUrl (item : StreamItem) : String :=
  match firstHref item.canonical with
  | some h => h
  | none =>
    match firstHref item.alternate with
    | some h => h
    | none => ""

/-- The object built by `formatArticle` (`src/index.ts`); `feedTitle`
and `summary` are `none` when the corresponding key is not set. -/
structure FormattedArticle where
  id : String
  title : String
  url : String
  author : String
  published : Nat
  isRead : Bool
  isStarred : Bool
  feedTitle : Option String
  summary : Option String
deriving DecidableEq, Repr

/-- Embedding of `formatArticle` (`src/index.ts` lines 127-151): read
and starred flags come from membership of the state tags in the
category list; the summary key is set only for a truthy
`summary?.content`, truncated to its first 500 characters plus `"..."`
when longer than 500. -/
def formatArticle (item : StreamItem) : FormattedArticle :=
  { id := item.id
    title := item.title
    url := getArticleUrl item
    author := item.author.getD ""
    published := item.published.getD 0
    isRead := item.categories.contains readStateTag
    isStarred := item.categories.contains starredStateTag
    feedTitle := item.origin.map (fun o => o.title)
    summary :=
      match item.summary with
      | some s =>
        if s.content = "" then none
        else if s.content.length > 500 then some (s.content.take 500 ++ "...")
        else some s.content
      | none => none }

/-! ## Concrete fixtures used to instantiate the theorems -/

/-- A 401 response. -/
def resp401 : Response := ⟨401, "Unauthorized", none, ""⟩

/-- A successful JSON response. -/
def respOkJson : Response := ⟨200, "OK", some "application/json; charset=utf-8", "{}"⟩

/-- A 500 response. -/
def resp500 : Response := ⟨500, "Internal Server Error", none, "boom"⟩

/-- A refresh environment in which the refresh protocol succeeds and the
upstream omits a new refresh token. -/
def envRefreshOk : RefreshEnv := ⟨some ⟨"A", "R", some 5⟩, some ⟨"A2", "", 3600⟩, 1000⟩

/-- A refresh environment with no stored tokens: the refresh protocol
fails. -/
def envRefreshFail : RefreshEnv := ⟨none, none, 0⟩

/-- A freshly constructed client session. -/
def freshState : ReqState := ⟨"A", false, 0⟩

/-! ## Helper lemmas -/

theorem startsWithChars_self_append (t r : List Char) :
    startsWithChars t (t ++ r) = true := by
  induction t with
  | nil => rfl
  | cons a as ih => simp [startsWithChars, ih]

theorem containsChars_self_append (t r : List Char) :
    containsChars t (t ++ r) = true := by
  cases hl : t ++ r with
  | nil =>
    have ht : t = [] := by cases t <;> simp_all
    subst ht; simp [containsChars]
  | cons b bs =>
    rw [containsChars, ← hl, startsWithChars_self_append]
    rfl

theorem containsChars_middle (p t r : List Char) :
    containsChars t (p ++ (t ++ r)) = true := by
  induction p with
  | nil => simpa using containsChars_self_append t r
  | cons a p ih => simp [containsChars, ih]

/-- A string whose character data has the shape `p ++ t.data ++ r`
contains `t` as a substring. -/
theorem strContains_of_data (s t : String) (p r : List Char)
    (h : s.data = p ++ (t.data ++ r)) : strContains s t = true := by
  unfold strContains
  rw [h]
  exact containsChars_middle p t.data r

/-- A client whose retry flag is already set never invokes the refresh
protocol during a call. -/
theorem refreshCount_of_flag_set (env : RefreshEnv) (st : ReqState)
    (rs : List Response) (h : st.hasRetriedAuth = true) :
    (request env st rs).2.refreshCount = st.refreshCount := by
  cases rs with
  | nil => rfl
  | cons r rest =>
    rw [request]
    rw [if_neg (by simp [h])]
    split
    · rfl
    · split
      · rfl
      · split <;> rfl

/-- A 401 received while the retry flag is set fails immediately with
the expired-token `AuthenticationError`, leaving the state unchanged. -/
theorem request_401_flag_set (env : RefreshEnv) (st : ReqState)
    (r : Response) (rest : List Response)
    (hflag : st.hasRetriedAuth = true) (h401 : r.status = 401) :
    request env st (r :: rest) = (.error (.authentication authExpiredMsg), st) := by
  rw [request]
  rw [if_neg (by simp [hflag])]
  rw [if_pos h401]

/-! ## Claim theorems -/

/-- Claim C1: for a logical call whose first attempt returns HTTP 401,
if the token-refresh protocol succeeds then a successful replay yields
exactly the result the original request would have produced had it
succeeded outright; and the refresh-and-replay happens at most once per
call, so a 401 on the replayed attempt fails with an Authentication
error after exactly one refresh invocation. -/
theorem c1_refresh_replay_refines (env : RefreshEnv) (st : ReqState)
    (r1 r2 : Response) (hflag : st.hasRetriedAuth = false)
    (h401 : r1.status = 401) (hrefresh : (tryRefreshToken env).success = true) :
    (200 ≤ r2.status → r2.status < 300 →
      (request env st [r1, r2]).1 = (request env st [r2]).1)
    ∧ (r2.status = 401 →
      (request env st [r1, r2]).1 = .error (.authentication authExpiredMsg)
      ∧ (request env st [r1, r2]).2.refreshCount = st.refreshCount + 1) := by
  have hstep :
      request env st [r1, r2] =
        request env
          { accessToken := ((tryRefreshToken env).newAccess).getD st.accessToken
            hasRetriedAuth := true
            refreshCount := st.refreshCount + 1 } [r2] := by
    rw [request]
    rw [if_pos ⟨h401, hflag⟩]
    simp only [hrefresh, if_true]
  constructor
  · intro h2a h2b
    have hn401 : ¬ r2.status = 401 := by omega
    have hn403 : ¬ r2.status = 403 := by omega
    have hok : r2.isOk := ⟨h2a, h2b⟩
    rw [hstep]
    simp [request, hn401, hn403, hok]
  · intro h2
    rw [hstep, request_401_flag_set env _ r2 [] rfl h2]
    exact ⟨rfl, rfl⟩

/-- Claim C1 witness: with a fresh session, a refresh environment in
which the refresh succeeds, a first 401 and then a successful JSON
response, the call result equals that of the directly successful call;
with 401 on both attempts the call fails with an Authentication error
after exactly one refresh. -/
theorem c1_refresh_replay_refines_witness :
    ((request envRefreshOk freshState [resp401, respOkJson]).1 =
      (request envRefreshOk freshState [respOkJson]).1)
    ∧ ((request envRefreshOk freshState [resp401, resp401]).1 =
        .error (.authentication authExpiredMsg)
      ∧ (request envRefreshOk freshState [resp401, resp401]).2.refreshCount = 1) :=
  ⟨(c1_refresh_replay_refines envRefreshOk freshState resp401 respOkJson rfl rfl rfl).1
      (by decide) (by decide),
   (c1_refresh_replay_refines envRefreshOk freshState resp401 resp401 rfl rfl rfl).2 rfl⟩

/-- Claim C2 counterexample: the retry allowance is NOT scoped per
logical call. A first call whose 401-triggered refresh fails (here: no
stored tokens) completes with an Authentication error and leaves the
instance flag set; the next call on the same client then receives a 401
on its first attempt and, contrary to the claim, does not invoke the
token-refresh protocol (the refresh count stays at 1) and fails with an
Authentication error even though its refresh environment would have
succeeded and the replay would have been a 200. -/
theorem c2_per_call_scoping_counterexample :
    ((request envRefreshFail freshState [resp401]).1 =
      .error (.authentication authExpiredMsg))
    ∧ ((request envRefreshOk
          (request envRefreshFail freshState [resp401]).2
          [resp401, respOkJson]).1 = .error (.authentication authExpiredMsg))
    ∧ ((request envRefreshOk
          (request envRefreshFail freshState [resp401]).2
          [resp401, respOkJson]).2.refreshCount =
        (request envRefreshFail freshState [resp401]).2.refreshCount) := by
  refine ⟨rfl, rfl, rfl⟩

/-- Claim C2 amended: the retry allowance is per client instance, and is
cleared only by a successful completion. After a call completes with a
2xx response, the flag is clear, so the next call that receives a 401 on
its first attempt invokes the token-refresh protocol exactly once; but
while the flag is set — as it remains after a call whose refresh failed —
a 401 on the first attempt of the next call fails with an Authentication
error without any refresh invocation. -/
theorem c2_retry_flag_instance_scoped (env env2 : RefreshEnv) (st : ReqState)
    (r rr : Response) (rest : List Response) :
    (200 ≤ r.status → r.status < 300 →
      (request env st [r]).2.hasRetriedAuth = false)
    ∧ (st.hasRetriedAuth = false → rr.status = 401 →
        (request env2 st (rr :: rest)).2.refreshCount = st.refreshCount + 1)
    ∧ (st.hasRetriedAuth = true → rr.status = 401 →
        (request env2 st (rr :: rest)).1 = .error (.authentication authExpiredMsg)
        ∧ (request env2 st (rr :: rest)).2.refreshCount = st.refreshCount) := by
  refine ⟨?_, ?_, ?_⟩
  · intro h2a h2b
    have hn401 : ¬ r.status = 401 := by omega
    have hn403 : ¬ r.status = 403 := by omega
    have hok : r.isOk := ⟨h2a, h2b⟩
    simp [request, hn401, hn403, hok]
  · intro hflag h401
    rw [request]
    rw [if_pos ⟨h401, hflag⟩]
    by_cases hs : (tryRefreshToken env2).success = true
    · simp only [hs, if_true]
      exact refreshCount_of_flag_set env2 _ rest rfl
    · simp [hs]
  · intro hflag h401
    rw [request_401_flag_set env2 st rr rest hflag h401]
    exact ⟨rfl, rfl⟩

/-- Claim C2 (amended) witness: a successful call clears the flag; a
fresh call hitting a 401 invokes exactly one refresh; a call starting
with the flag set (as left behind by a failed call) fails on a 401
without refreshing. -/
theorem c2_retry_flag_instance_scoped_witness :
    ((request envRefreshOk freshState [respOkJson]).2.hasRetriedAuth = false)
    ∧ ((request envRefreshOk freshState [resp401, respOkJson]).2.refreshCount = 1)
    ∧ ((request envRefreshOk (⟨"A", true, 1⟩ : ReqState) [resp401, respOkJson]).1 =
        .error (.authentication authExpiredMsg)
      ∧ (request envRefreshOk (⟨"A", true, 1⟩ : ReqState)
          [resp401, respOkJson]).2.refreshCount = 1) :=
  ⟨(c2_retry_flag_instance_scoped envRefreshOk envRefreshOk freshState
      respOkJson resp401 [respOkJson]).1 (by decide) (by decide),
   (c2_retry_flag_instance_scoped envRefreshOk envRefreshOk freshState
      respOkJson resp401 [respOkJson]).2.1 rfl rfl,
   (c2_retry_flag_instance_scoped envRefreshOk envRefreshOk (⟨"A", true, 1⟩ : ReqState)
      respOkJson resp401 [respOkJson]).2.2 rfl rfl⟩

/-- Claim C3: a successful refresh from a stored pair whose refresh
token is `R`, when the upstream response omits (here: returns a falsy)
new refresh token, persists in one `saveTokens` call the pair holding
the new access token together with `R` carried forward, and only then
adopts the new access token into the live session — as witnessed by the
ordered event trace `[save pair, adopt access]`. -/
theorem c3_refresh_carries_forward_refresh_token (env : RefreshEnv)
    (tok : TokenData) (nt : TokenResponse)
    (hstore : env.storedTokens = some tok) (hR : tok.refreshToken ≠ "")
    (hres : env.refreshResult = some nt) (hnoR : nt.refresh_token = "") :
    (tryRefreshToken env).success = true
    ∧ (tryRefreshToken env).saved =
        some ⟨nt.access_token, tok.refreshToken, some (env.now + nt.expires_in * 1000)⟩
    ∧ (tryRefreshToken env).newAccess = some nt.access_token
    ∧ (tryRefreshToken env).events =
        [.save ⟨nt.access_token, tok.refreshToken, some (env.now + nt.expires_in * 1000)⟩,
         .adopt nt.access_token] := by
  simp [tryRefreshToken, hstore, hres, hR, hnoR]

/-- Claim C3 witness: refreshing from stored pair
`{access := "A", refresh := "R"}` with an upstream response
`{access_token := "A2", refresh_token := "", expires_in := 3600}` at
time 1000 persists `{accessToken := "A2", refreshToken := "R",
expiresAt := 3601000}` and then adopts `"A2"`. -/
theorem c3_refresh_carries_forward_refresh_token_witness :
    (tryRefreshToken envRefreshOk).success = true
    ∧ (tryRefreshToken envRefreshOk).saved = some ⟨"A2", "R", some 3601000⟩
    ∧ (tryRefreshToken envRefreshOk).newAccess = some "A2"
    ∧ (tryRefreshToken envRefreshOk).events =
        [.save ⟨"A2", "R", some 3601000⟩, .adopt "A2"] :=
  c3_refresh_carries_forward_refresh_token envRefreshOk ⟨"A", "R", some 5⟩
    ⟨"A2", "", 3600⟩ rfl (by decide) rfl rfl

/-- Claim C4: any response that is neither 2xx nor 401 nor 403 makes the
call fail with a generic client error whose message contains the numeric
status code and the reason phrase, with no retry: the session state
(including the refresh-invocation count) is unchanged. -/
theorem c4_generic_client_error (env : RefreshEnv) (st : ReqState) (r : Response)
    (hnok : ¬ r.isOk) (h401 : r.status ≠ 401) (h403 : r.status ≠ 403) :
    (request env st [r]).1 =
      .error (.client ("API request failed: " ++ toString r.status ++ " " ++ r.statusText))
    ∧ strContains ("API request failed: " ++ toString r.status ++ " " ++ r.statusText)
        (toString r.status) = true
    ∧ (request env st [r]).2 = st := by
  refine ⟨?_, ?_, ?_⟩
  · simp [request, h401, h403, hnok]
  · exact strContains_of_data _ _ "API request failed: ".data
      (" ".data ++ r.statusText.data) (by simp)
  · simp [request, h401, h403, hnok]

/-- Claim C4 witness: a 500 response yields the generic client error
`API request failed: 500 Internal Server Error`, whose message contains
`500`, and leaves the session untouched. -/
theorem c4_generic_client_error_witness :
    (request envRefreshOk freshState [resp500]).1 =
      .error (.client "API request failed: 500 Internal Server Error")
    ∧ strContains "API request failed: 500 Internal Server Error" "500" = true
    ∧ (request envRefreshOk freshState [resp500]).2 = freshState :=
  c4_generic_client_error envRefreshOk freshState resp500
    (by decide) (by decide) (by decide)

/-- Claim C5: every 2xx response is returned successfully, classified
into exactly one of three kinds by header and status: a content-type
containing `application/json` yields the JSON-decoded body; otherwise a
204/205 status or an empty body yields the void result; any other 2xx
yields the raw response text. -/
theorem c5_success_classification (env : RefreshEnv) (st : ReqState) (r : Response)
    (h2a : 200 ≤ r.status) (h2b : r.status < 300) :
    (request env st [r]).1 = .ok (classify r)
    ∧ (jsonContentType r = true → classify r = .json r.body)
    ∧ (jsonContentType r = false → (r.status = 204 ∨ r.status = 205 ∨ r.body = "") →
        classify r = .voidResult)
    ∧ (jsonContentType r = false → r.status ≠ 204 → r.status ≠ 205 → r.body ≠ "" →
        classify r = .text r.body) := by
  have hn401 : ¬ r.status = 401 := by omega
  have hn403 : ¬ r.status = 403 := by omega
  have hok : r.isOk := ⟨h2a, h2b⟩
  refine ⟨by simp [request, hn401, hn403, hok], ?_, ?_, ?_⟩
  · intro hj
    simp [classify, hj]
  · intro hj hv
    rcases hv with h | h | h
    · simp [classify, hj, h]
    · simp [classify, hj, h]
    · by_cases h45 : r.status = 204 ∨ r.status = 205 <;> simp [classify, hj, h45, h]
  · intro hj h204 h205 hbody
    simp [classify, hj, h204, h205, hbody]

/-- Claim C5 witness: a 200 JSON response returns the decoded body, a
204 returns the void result, and a 200 `text/plain` response returns the
raw text. -/
theorem c5_success_classification_witness :
    (request envRefreshOk freshState [respOkJson]).1 = .ok (.json "{}")
    ∧ classify (⟨204, "No Content", none, ""⟩ : Response) = .voidResult
    ∧ classify (⟨200, "OK", some "text/plain", "hello"⟩ : Response) = .text "hello" :=
  ⟨(c5_success_classification envRefreshOk freshState respOkJson
      (by decide) (by decide)).1,
   (c5_success_classification envRefreshOk freshState ⟨204, "No Content", none, ""⟩
      (by decide) (by decide)).2.2.1 (by decide) (Or.inl rfl),
   (c5_success_classification envRefreshOk freshState ⟨200, "OK", some "text/plain", "hello"⟩
      (by decide) (by decide)).2.2.2 (by decide) (by decide) (by decide) (by decide)⟩

/-- Claim C6: the page-size parameter `n` sent by `getStreamContents`
defaults to 20 when no count is given and is clamped above to 1000
(count 5000 sends 1000); counts of 0 or less are rejected by the
`get_articles` zod schema before reaching the client, and every count
the schema accepts is sent unchanged and lies within [1, 1000]. -/
theorem c6_stream_count_clamp (sid : String) (c : Int) :
    ((getStreamContents sid ⟨none, none, none, false⟩).params.lookup "n" = some "20")
    ∧ ((getStreamContents sid ⟨some 5000, none, none, false⟩).params.lookup "n" =
        some "1000")
    ∧ (c ≤ 0 → getArticlesCountAccepts c = false)
    ∧ (getArticlesCountAccepts c = true →
        (getStreamContents sid ⟨some c, none, none, false⟩).params.lookup "n" =
          some (toString c)
        ∧ 1 ≤ min c 1000 ∧ min c 1000 ≤ 1000) := by
  refine ⟨rfl, rfl, ?_, ?_⟩
  · intro hc
    simp only [getArticlesCountAccepts, decide_eq_false_iff_not]
    omega
  · intro hc
    simp only [getArticlesCountAccepts, decide_eq_true_eq] at hc
    have hmin : min c 1000 = c := min_eq_left (by omega)
    refine ⟨?_, by omega, by omega⟩
    show ((getStreamContents sid ⟨some c, none, none, false⟩).params).lookup "n" =
      some (toString c)
    simp only [getStreamContents, strTruthy]
    rw [Option.getD_some, hmin]
    rfl

/-- Claim C6 witness: a schema-accepted count of 50 is sent unchanged,
and the schema rejects -3. -/
theorem c6_stream_count_clamp_witness :
    ((getStreamContents "feed/x" ⟨some 50, none, none, false⟩).params.lookup "n" =
      some "50")
    ∧ getArticlesCountAccepts (-3) = false :=
  ⟨((c6_stream_count_clamp "feed/x" 50).2.2.2 (by decide)).1,
   (c6_stream_count_clamp "feed/x" (-3)).2.2.1 (by decide)⟩

/-- Claim C7: `editSubscription` with no (truthy) title, add-folder or
remove-folder option fails with a client error producing no outgoing
request; and with equal (truthy) add-folder and remove-folder targets it
likewise fails with a client error producing no outgoing request. -/
theorem c7_edit_subscription_local_errors (sid : String) (o : EditOptions) :
    (strTruthy o.title = false → strTruthy o.addToFolder = false →
      strTruthy o.removeFromFolder = false →
      editSubscription sid o =
        .error (.client "At least one option (title, addToFolder, or removeFromFolder) is required"))
    ∧ (strTruthy o.addToFolder = true → strTruthy o.removeFromFolder = true →
        o.addToFolder = o.removeFromFolder →
        editSubscription sid o =
          .error (.client "Cannot add and remove from the same folder")) := by
  constructor
  · intro h1 h2 h3
    simp [editSubscription, h1, h2, h3]
  · intro h1 h2 h3
    simp [editSubscription, h1, h2, h3]

/-- Claim C7 witness: no options at all, and equal add/remove folder
targets, each yield the corresponding local client error. -/
theorem c7_edit_subscription_local_errors_witness :
    editSubscription "sub" ⟨none, none, none⟩ =
      .error (.client "At least one option (title, addToFolder, or removeFromFolder) is required")
    ∧ editSubscription "sub" ⟨none, some "F", some "F"⟩ =
      .error (.client "Cannot add and remove from the same folder") :=
  ⟨(c7_edit_subscription_local_errors "sub" ⟨none, none, none⟩).1 rfl rfl rfl,
   (c7_edit_subscription_local_errors "sub" ⟨none, some "F", some "F"⟩).2
     (by decide) (by decide) rfl⟩

/-- Claim C8: `markAsUnread` with an empty id list produces no outgoing
request and returns successfully, and the `mark_as_unread` tool reports
zero items affected. -/
theorem c8_mark_unread_empty_noop :
    markAsUnread [] = none
    ∧ markAsUnreadToolMessage [] = "Marked 0 items as unread" :=
  ⟨rfl, rfl⟩

/-- Claim C9: `formatArticle` sets `isRead` exactly when the category
set contains the read state tag and `isStarred` exactly when it contains
the starred tag (so read-and-not-starred yields
`{isRead := true, isStarred := false}`); a present (truthy) summary
longer than 500 characters is truncated to its first 500 characters
followed by `"..."`, and one of at most 500 characters is passed through
unchanged. -/
theorem c9_format_article (item : StreamItem) :
    ((formatArticle item).isRead = item.categories.contains readStateTag)
    ∧ ((formatArticle item).isStarred = item.categories.contains starredStateTag)
    ∧ (item.categories.contains readStateTag = true →
        item.categories.contains starredStateTag = false →
        (formatArticle item).isRead = true ∧ (formatArticle item).isStarred = false)
    ∧ (∀ s, item.summary = some s → s.content ≠ "" → 500 < s.content.length →
        (formatArticle item).summary = some (s.content.take 500 ++ "..."))
    ∧ (∀ s, item.summary = some s → s.content ≠ "" → s.content.length ≤ 500 →
        (formatArticle item).summary = some s.content) := by
  refine ⟨rfl, rfl, ?_, ?_, ?_⟩
  · intro h1 h2
    exact ⟨h1, h2⟩
  · intro s hs hne hlen
    simp [formatArticle, hs, hne, hlen]
  · intro s hs hne hlen
    have : ¬ s.content.length > 500 := by omega
    simp [formatArticle, hs, hne, this]

set_option maxRecDepth 4000 in
/-- Claim C9 witness: an article carrying the read tag but not the
starred tag, with the 2-character summary `"hi"`, formats to
`{isRead := true, isStarred := false}` with the summary unchanged; an
article whose summary is 501 repetitions of `a` formats to the first 500
repetitions followed by `"..."`. -/
theorem c9_format_article_witness :
    (formatArticle ⟨"id1", some 3, "t", none, none, [readStateTag], none,
        some ⟨"ltr", "hi"⟩, none⟩).isRead = true
    ∧ (formatArticle ⟨"id1", some 3, "t", none, none, [readStateTag], none,
        some ⟨"ltr", "hi"⟩, none⟩).isStarred = false
    ∧ (formatArticle ⟨"id1", some 3, "t", none, none, [readStateTag], none,
        some ⟨"ltr", "hi"⟩, none⟩).summary = some "hi"
    ∧ (formatArticle ⟨"id2", none, "t", none, none, [], none,
        some ⟨"ltr", String.mk (List.replicate 501 'a')⟩, none⟩).summary =
      some ((String.mk (List.replicate 501 'a')).take 500 ++ "...") :=
  ⟨((c9_format_article _).2.2.1 (by decide) (by decide)).1,
   ((c9_format_article _).2.2.1 (by decide) (by decide)).2,
   (c9_format_article _).2.2.2.2 ⟨"ltr", "hi"⟩ rfl (by decide) (by decide),
   (c9_format_article _).2.2.2.1 ⟨"ltr", String.mk (List.replicate 501 'a')⟩ rfl
     (by decide) (by decide)⟩

/-- Claim C10: `markAsRead` with no stream id and an absent or empty id
list is a silent no-op — no outgoing request and no error; and with a
non-empty id list the stream id and timestamp arguments are ignored
entirely: the outgoing request is the same as if they were absent. -/
theorem c10_mark_read_noop_and_ignored_args (ids : List String)
    (sid : Option String) (ts : Option Nat) :
    (markAsRead none none ts = none)
    ∧ (markAsRead (some []) none ts = none)
    ∧ (ids ≠ [] → markAsRead (some ids) sid ts = markAsRead (some ids) none none) := by
  refine ⟨?_, ?_, ?_⟩
  · simp [markAsRead, markAsReadStreamBranch, strTruthy]
  · simp [markAsRead, markAsReadStreamBranch, strTruthy]
  · intro h
    have hlen : ids.length > 0 := List.length_pos.mpr h
    simp [markAsRead, hlen]

/-- Claim C10 witness: with no stream id and id list absent or empty
(and a nonzero timestamp supplied) no request is produced; with one id,
a supplied stream id and timestamp produce the identical request to the
call without them. -/
theorem c10_mark_read_noop_and_ignored_args_witness :
    markAsRead none none (some 7) = none
    ∧ markAsRead (some []) none (some 7) = none
    ∧ markAsRead (some ["i1"]) (some "s") (some 7) =
        markAsRead (some ["i1"]) none none :=
  ⟨(c10_mark_read_noop_and_ignored_args ["i1"] (some "s") (some 7)).1,
   (c10_mark_read_noop_and_ignored_args ["i1"] (some "s") (some 7)).2.1,
   (c10_mark_read_noop_and_ignored_args ["i1"] (some "s") (some 7)).2.2
     (by decide)⟩

end Inoreader
